import Mathlib

/-!
Verification of the next-laravel-bridge library.

This file gives a shallow embedding of the parts of the library that the
verified properties talk about: the in-memory query cache of
useLaravelQuery.ts, the axios error interceptors, the helper functions of
utils/helpers.ts, the form error handling of useLaravelForm.ts, the
client-side pagination of useLaravelPagination.ts, and the SSR helper
getServerSideAuth.ts.  JavaScript values are modelled by an explicit
inductive type, JavaScript Map and Record operations by association lists,
and the asynchronous HTTP calls by explicit outcome parameters.
-/

namespace NLBridge

/-- Model of a JavaScript runtime value (JSON-like data): null, undefined,
strings, numbers, booleans, arrays and plain objects.  Objects are
association lists of own enumerable properties in insertion order. -/
inductive JsValue where
  | null
  | undef
  | str (s : String)
  | num (n : Int)
  | boolean (b : Bool)
  | arr (elts : List JsValue)
  | obj (fields : List (String × JsValue))

/-- JavaScript String.prototype.trim, modelled on the character list of the
string: drop leading whitespace, then drop trailing whitespace. -/
def jsTrim (l : List Char) : List Char :=
  ((l.dropWhile Char.isWhitespace).reverse.dropWhile Char.isWhitespace).reverse

/-- isEmpty from src/utils/helpers.ts.  The source checks, in order:
value == null (which also matches undefined), strings via
value.trim().length === 0, arrays via value.length === 0, remaining objects
via Object.keys(value).length === 0, and returns false otherwise. -/
def isEmpty (value : JsValue) : Bool :=
  match value with
  | .null => true
  | .undef => true
  | .str s => (jsTrim s.data).length == 0
  | .arr elts => elts.length == 0
  | .obj fields => fields.length == 0
  | .num _ => false
  | .boolean _ => false

/-- formatLaravelErrors from src/utils/helpers.ts.  For each key of the
input record, the output maps the key to the first element of the value
when the value is an array (errors[key][0], which is undefined for an empty
array) and to the value itself otherwise. -/
def formatLaravelErrors : List (String × JsValue) → List (String × JsValue)
  | [] => []
  | (key, v) :: rest =>
      (key,
        match v with
        | .arr elts => elts.headD .undef
        | other => other) :: formatLaravelErrors rest

/-! ## The query cache of src/query/useLaravelQuery.ts -/

/-- One entry of the global query cache: the response data together with the
timestamp at which it was stored. -/
structure CacheEntry where
  data : JsValue
  timestamp : Int

/-- The global query cache.  The source keeps a JavaScript
Map of key strings to entries; a Map is an insertion-ordered collection
with unique keys, modelled here as an association list. -/
abbrev QueryCache := List (String × CacheEntry)

/-- JavaScript Map.prototype.get on the query cache. -/
def mapGet : QueryCache → String → Option CacheEntry
  | [], _ => none
  | (k, e) :: rest, key => if k = key then some e else mapGet rest key

/-- JavaScript Map.prototype.set on the query cache: overwrite the entry of
an existing key in place, otherwise append the new binding at the end. -/
def mapSet : QueryCache → String → CacheEntry → QueryCache
  | [], key, e => [(key, e)]
  | (k, e0) :: rest, key, e =>
      if k = key then (key, e) :: rest else (k, e0) :: mapSet rest key e

/-- JavaScript Map.prototype.delete on the query cache: remove the binding
of the given key, if present. -/
def mapDelete : QueryCache → String → QueryCache
  | [], _ => []
  | (k, e) :: rest, key => if k = key then rest else (k, e) :: mapDelete rest key

/-- JavaScript String.prototype.startsWith, modelled on character lists. -/
def jsStartsWith (s pre0 : String) : Bool := pre0.data.isPrefixOf s.data

/-- invalidateQuery from useLaravelQuery.ts: first collect into keysToDelete
every cache key that starts with the endpoint, then delete each collected
key from the cache. -/
def invalidateQuery (endpoint : String) (cache : QueryCache) : QueryCache :=
  let keysToDelete := (cache.filter (fun p => jsStartsWith p.1 endpoint)).map (fun p => p.1)
  keysToDelete.foldl mapDelete cache

/-- Outcome of the HTTP GET issued by fetchData, as observed by the hook. -/
inductive HttpResult where
  | success (data : JsValue)
  | failure (message : String)

/-- Observable result of one fetchData call: whether the network request was
issued, the resulting cache, and the values passed to the setData,
setDataUpdatedAt and setError state setters (none when the setter for the
corresponding value did not fire on this path). -/
structure FetchResult where
  requestIssued : Bool
  cache : QueryCache
  data : Option JsValue
  dataUpdatedAt : Option Int
  errorSet : Option String

/-- The freshness test at the top of fetchData:
cached && Date.now() - cached.timestamp < cacheTime && !isRefetch. -/
def cacheFresh (cached : Option CacheEntry) (now cacheTime : Int) (isRefetch : Bool) : Bool :=
  match cached with
  | some entry => decide (now - entry.timestamp < cacheTime) && !isRefetch
  | none => false

/-- The tail of fetchData after the cache check: the GET is issued; on
success the response is stored in the cache under the key with the
completion time (Date.now() evaluated after the await) and the data state
is set; on failure only the error state is set. -/
def fetchComplete (cache : QueryCache) (key : String) (http : HttpResult)
    (fetchTime : Int) : FetchResult :=
  match http with
  | .success d =>
      { requestIssued := true
        cache := mapSet cache key { data := d, timestamp := fetchTime }
        data := some d
        dataUpdatedAt := some fetchTime
        errorSet := none }
  | .failure msg =>
      { requestIssued := true
        cache := cache
        data := none
        dataUpdatedAt := none
        errorSet := some msg }

/-- fetchData from useLaravelQuery.ts.  When the hook is disabled it returns
at once.  Otherwise, when the cache holds a fresh entry for the key and this
is not a refetch, the cached data and its timestamp are delivered without
any request; otherwise the GET is issued and completes as in fetchComplete.
The times of the cache check and of the completion are distinct Date.now()
calls, passed here as now and fetchTime. -/
def fetchData (enabled : Bool) (cache : QueryCache) (key : String)
    (cacheTime now : Int) (isRefetch : Bool) (http : HttpResult)
    (fetchTime : Int) : FetchResult :=
  if !enabled then
    { requestIssued := false, cache := cache, data := none
      dataUpdatedAt := none, errorSet := none }
  else if cacheFresh (mapGet cache key) now cacheTime isRefetch then
    { requestIssued := false
      cache := cache
      data := (mapGet cache key).map CacheEntry.data
      dataUpdatedAt := (mapGet cache key).map CacheEntry.timestamp
      errorSet := none }
  else fetchComplete cache key http fetchTime

/-! ## The axios interceptors (api/interceptors.ts) -/

/-- The response part of an axios error: the HTTP status and the fields of
response.data that the interceptors read (data.errors and data.message),
each optional because response.data may lack them. -/
structure ErrorResponse where
  status : Nat
  errors : Option (List (String × JsValue))
  message : Option String

/-- The original request configuration attached to an axios error: its url
and the mutable retry flag the error interceptor sets. -/
structure RequestConfig where
  url : Option String
  retryMarked : Bool

/-- An axios error as seen by the interceptors: error.response and
error.config are both optional. -/
structure AxiosErrorModel where
  response : Option ErrorResponse
  config : Option RequestConfig

/-- Outcome of the fetch POST to /api/refresh performed by the error
interceptor: either the whole attempt throws, or a response arrives with
its ok flag and the optional token field of its JSON body. -/
inductive RefreshOutcome where
  | throws
  | response (ok : Bool) (token : Option String)

/-- JavaScript truthiness of an optional string: undefined and the empty
string are falsy, every other string is truthy. -/
def strTruthy : Option String → Bool
  | none => false
  | some s => !(s == "")

/-- Observable effects of one run of errorInterceptor: whether the refresh
endpoint was called, whether the original request was re-issued by axios
(and with which bearer token), the final value of the retry mark, the
cookie writes, the redirect, and whether the interceptor rejected with the
original error. -/
structure InterceptOutcome where
  refreshAttempted : Bool
  reissued : Bool
  reissuedToken : Option String
  retryMarked : Bool
  cookieSet : Option String
  cookieRemoved : Bool
  redirectedToLogin : Bool
  rejected : Bool

/-- errorInterceptor from api/interceptors.ts.  On a 401 response whose
original request exists and is not yet marked, the request is marked and a
refresh is attempted: if the refresh response is ok and carries a truthy
token, the token is stored in the cookie and, when the original request has
a truthy url, the request is re-issued with the new bearer token; on every
other refresh outcome (including a throw) the access token cookie is
removed, the browser is redirected to /login, and the function falls
through to rejecting the original error.  Every other error is rejected
unchanged. -/
def errorInterceptor (error : AxiosErrorModel) (refresh : RefreshOutcome) :
    InterceptOutcome :=
  let status401 : Bool :=
    match error.response with
    | some r => r.status == 401
    | none => false
  match error.config with
  | some originalRequest =>
      if status401 && !originalRequest.retryMarked then
        match refresh with
        | .throws =>
            { refreshAttempted := true, reissued := false, reissuedToken := none
              retryMarked := true, cookieSet := none, cookieRemoved := true
              redirectedToLogin := true, rejected := true }
        | .response ok token =>
            if ok && strTruthy token then
              if strTruthy originalRequest.url then
                { refreshAttempted := true, reissued := true, reissuedToken := token
                  retryMarked := true, cookieSet := token, cookieRemoved := false
                  redirectedToLogin := false, rejected := false }
              else
                { refreshAttempted := true, reissued := false, reissuedToken := none
                  retryMarked := true, cookieSet := token, cookieRemoved := true
                  redirectedToLogin := true, rejected := true }
            else
              { refreshAttempted := true, reissued := false, reissuedToken := none
                retryMarked := true, cookieSet := none, cookieRemoved := true
                redirectedToLogin := true, rejected := true }
      else
        { refreshAttempted := false, reissued := false, reissuedToken := none
          retryMarked := originalRequest.retryMarked, cookieSet := none
          cookieRemoved := false, redirectedToLogin := false, rejected := true }
  | none =>
      { refreshAttempted := false, reissued := false, reissuedToken := none
        retryMarked := false, cookieSet := none, cookieRemoved := false
        redirectedToLogin := false, rejected := true }

/-- The value rejected by validationErrorInterceptor: either the original
error augmented with laravelErrors and a message, or the original error
unchanged. -/
inductive ValidationReject where
  | augmented (laravelErrors : Option (List (String × JsValue))) (message : String)
  | original

/-- The JavaScript expression m || dflt on an optional string: the default
is used when the field is undefined or the empty string. -/
def jsOrDefault (m : Option String) (dflt : String) : String :=
  match m with
  | some s => if s == "" then dflt else s
  | none => dflt

/-- validationErrorInterceptor from api/interceptors.ts: on a 422 response
the rejection carries laravelErrors := response.data.errors and
message := response.data.message || a default; every other error is
rejected unchanged. -/
def validationErrorInterceptor (error : AxiosErrorModel) : ValidationReject :=
  match error.response with
  | some r =>
      if r.status == 422 then
        .augmented r.errors (jsOrDefault r.message "Erreur de validation")
      else .original
  | none => .original

/-! ## Form error handling (forms/useLaravelForm.ts) -/

/-- The part of the useLaravelForm state that submission affects: the
field-error map, the isValid flag, and the isSubmitting flag. -/
structure FormState where
  errors : List (String × JsValue)
  isValid : Bool
  isSubmitting : Bool

/-- setErrors from useLaravelForm: store the error map and recompute
isValid as Object.keys(errors).length === 0. -/
def setErrors (st : FormState) (errors : List (String × JsValue)) : FormState :=
  { st with errors := errors, isValid := errors.length == 0 }

/-- setLaravelErrors from useLaravelForm: format the Laravel errors and
store them with setErrors. -/
def setLaravelErrors (st : FormState) (laravelErrors : List (String × JsValue)) :
    FormState :=
  setErrors st (formatLaravelErrors laravelErrors)

/-- Outcome of the onSubmit callback as observed by handleSubmit: success,
or a thrown error which may carry response.data.errors. -/
inductive SubmitOutcome where
  | ok
  | err (responseErrors : Option (List (String × JsValue)))

/-- handleSubmit from useLaravelForm, modelled on the state it produces:
isSubmitting is raised, onSubmit runs; when it throws and
error.response.data.errors exists those errors are stored through
setLaravelErrors (and the error is rethrown); finally isSubmitting is
cleared. -/
def handleSubmit (st : FormState) (outcome : SubmitOutcome) : FormState :=
  let st1 := { st with isSubmitting := true }
  match outcome with
  | .ok => { st1 with isSubmitting := false }
  | .err none => { st1 with isSubmitting := false }
  | .err (some laravelErrors) =>
      { setLaravelErrors st1 laravelErrors with isSubmitting := false }

/-! ## Client-side pagination (pagination/useLaravelPagination.ts) -/

/-- The part of the useLaravelPagination state that the client-side
navigation callbacks read and write. -/
structure PaginationState where
  currentPage : Int
  lastPage : Int
  perPage : Int

/-- goToPage: setCurrentPage(page) only when page >= 1 && page <= lastPage. -/
def goToPage (st : PaginationState) (page : Int) : PaginationState :=
  if 1 ≤ page ∧ page ≤ st.lastPage then { st with currentPage := page } else st

/-- nextPage: increment currentPage only when currentPage < lastPage. -/
def nextPage (st : PaginationState) : PaginationState :=
  if st.currentPage < st.lastPage then { st with currentPage := st.currentPage + 1 }
  else st

/-- prevPage: decrement currentPage only when currentPage > 1. -/
def prevPage (st : PaginationState) : PaginationState :=
  if 1 < st.currentPage then { st with currentPage := st.currentPage - 1 } else st

/-- firstPage: setCurrentPage(1). -/
def firstPage (st : PaginationState) : PaginationState :=
  { st with currentPage := 1 }

/-- lastPageFn: setCurrentPage(lastPage). -/
def lastPageNav (st : PaginationState) : PaginationState :=
  { st with currentPage := st.lastPage }

/-- handleSetPerPage: store the new perPage and reset currentPage to 1. -/
def handleSetPerPage (st : PaginationState) (newPerPage : Int) : PaginationState :=
  { st with perPage := newPerPage, currentPage := 1 }

/-- The invariant of the current page: it stays between 1 and lastPage. -/
def pageInv (st : PaginationState) : Prop :=
  1 ≤ st.currentPage ∧ st.currentPage ≤ st.lastPage

/-! ## Server-side authentication (ssr/getServerSideAuth.ts) -/

/-- The ServerAuthContext returned by getServerSideAuth. -/
structure ServerAuthContext where
  isAuthenticated : Bool
  user : Option JsValue
  token : Option String

/-- Outcome of the fetch to the user endpoint: either the fetch (or the
JSON parse of its body) throws, or a response arrives with its ok flag and
parsed body. -/
inductive UserFetchOutcome where
  | throws
  | response (ok : Bool) (body : JsValue)

/-- Lookup in the cookies record passed to getServerSideAuth. -/
def lookupCookie : List (String × String) → String → Option String
  | [], _ => none
  | (k, v) :: rest, name => if k = name then some v else lookupCookie rest name

/-- getServerSideAuth from ssr/getServerSideAuth.ts: read the cookie named
cookieName; when the token is falsy (absent or empty) return the
unauthenticated context without any request; otherwise call the user
endpoint and return the authenticated context with the parsed user and the
token when the response is ok, and the unauthenticated context when the
response is not ok or the fetch throws. -/
def getServerSideAuth (cookies : List (String × String)) (cookieName : String)
    (fetchUser : UserFetchOutcome) : ServerAuthContext :=
  let token := lookupCookie cookies cookieName
  if !strTruthy token then
    { isAuthenticated := false, user := none, token := none }
  else
    match fetchUser with
    | .throws => { isAuthenticated := false, user := none, token := none }
    | .response ok body =>
        if ok then { isAuthenticated := true, user := some body, token := token }
        else { isAuthenticated := false, user := none, token := none }

/-! ## Lemmas about the Map operations -/

theorem mapGet_mem (cache : QueryCache) (key : String) (e : CacheEntry)
    (h : mapGet cache key = some e) : (key, e) ∈ cache := by
  induction cache with
  | nil => simp [mapGet] at h
  | cons head rest ih =>
    obtain ⟨k0, e0⟩ := head
    rw [mapGet] at h
    by_cases hk : k0 = key
    · rw [if_pos hk] at h
      subst hk
      cases h
      exact List.mem_cons_self _ _
    · rw [if_neg hk] at h
      exact List.mem_cons_of_mem _ (ih h)

theorem mapGet_mapSet_self (cache : QueryCache) (key : String) (e : CacheEntry) :
    mapGet (mapSet cache key e) key = some e := by
  induction cache with
  | nil => simp [mapSet, mapGet]
  | cons head rest ih =>
    obtain ⟨k0, e0⟩ := head
    by_cases hk : k0 = key
    · simp [mapSet, hk, mapGet]
    · simp [mapSet, hk, mapGet, ih]

theorem mapDelete_sublist (cache : QueryCache) (k : String) :
    List.Sublist (mapDelete cache k) cache := by
  induction cache with
  | nil => simp [mapDelete]
  | cons head rest ih =>
    obtain ⟨k0, e0⟩ := head
    by_cases hk : k0 = k
    · simp only [mapDelete, if_pos hk]
      exact List.sublist_cons_self _ _
    · simp only [mapDelete, if_neg hk]
      exact ih.cons₂ (k0, e0)

theorem nodup_keys_mapDelete (cache : QueryCache) (k : String)
    (hnd : (cache.map Prod.fst).Nodup) :
    ((mapDelete cache k).map Prod.fst).Nodup :=
  List.Nodup.sublist (List.Sublist.map Prod.fst (mapDelete_sublist cache k)) hnd

theorem mapGet_mapDelete (cache : QueryCache) (k key : String)
    (hnd : (cache.map Prod.fst).Nodup) :
    mapGet (mapDelete cache k) key = if key = k then none else mapGet cache key := by
  induction cache with
  | nil => simp [mapDelete, mapGet]
  | cons head rest ih =>
    obtain ⟨k0, e0⟩ := head
    simp only [List.map_cons, List.nodup_cons] at hnd
    by_cases h0 : k0 = k
    · subst h0
      rw [mapDelete, if_pos rfl]
      by_cases hk : key = k0
      · subst hk
        rw [if_pos rfl]
        cases heq : mapGet rest key with
        | none => rfl
        | some e =>
          exact absurd (List.mem_map.mpr ⟨(key, e), mapGet_mem rest key e heq, rfl⟩)
            hnd.1
      · rw [if_neg hk, mapGet, if_neg (fun hh => hk hh.symm)]
    · rw [mapDelete, if_neg h0]
      by_cases hk : k0 = key
      · subst hk
        simp [mapGet, h0]
      · rw [mapGet, if_neg hk, ih hnd.2, mapGet, if_neg hk]

theorem mapGet_foldl_mapDelete (ks : List String) (cache : QueryCache)
    (key : String) (hnd : (cache.map Prod.fst).Nodup) :
    mapGet (ks.foldl mapDelete cache) key =
      if key ∈ ks then none else mapGet cache key := by
  induction ks generalizing cache with
  | nil => simp
  | cons k ks ih =>
    rw [List.foldl_cons, ih (mapDelete cache k) (nodup_keys_mapDelete cache k hnd)]
    by_cases hks : key ∈ ks
    · simp [hks]
    · rw [if_neg hks, mapGet_mapDelete cache k key hnd]
      by_cases hk : key = k
      · simp [hk]
      · simp [List.mem_cons, hk, hks]

/-- C1: for every cache state and endpoint, invalidateQuery removes exactly
the entries whose key starts with the endpoint: afterwards a key is bound
if and only if it was bound before and does not start with the endpoint,
and the surviving entries keep their data and timestamp unchanged. -/
theorem c1_invalidateQuery_removes_exactly_matching (cache : QueryCache)
    (endpoint key : String) (hnd : (cache.map Prod.fst).Nodup) :
    mapGet (invalidateQuery endpoint cache) key =
      if jsStartsWith key endpoint then none else mapGet cache key := by
  unfold invalidateQuery
  rw [mapGet_foldl_mapDelete _ cache key hnd]
  by_cases hs : jsStartsWith key endpoint
  · rw [if_pos hs]
    by_cases hmem : key ∈ (cache.filter fun p => jsStartsWith p.1 endpoint).map fun p => p.1
    · rw [if_pos hmem]
    · rw [if_neg hmem]
      cases heq : mapGet cache key with
      | none => rfl
      | some e =>
        exact absurd
          (List.mem_map.mpr ⟨(key, e),
            List.mem_filter.mpr ⟨mapGet_mem cache key e heq, hs⟩, rfl⟩) hmem
  · rw [if_neg hs, if_neg ?hne]
    case hne =>
      intro hmem
      obtain ⟨p, hp, hfst⟩ := List.mem_map.mp hmem
      have hps := (List.mem_filter.mp hp).2
      rw [hfst] at hps
      exact hs hps

/-- Witness for C1 at a concrete two-entry cache. -/
theorem c1_witness :
    ((([("/api/users?page=1", ⟨.num 1, 10⟩), ("/api/posts?", ⟨.num 2, 20⟩)] :
        QueryCache).map Prod.fst).Nodup) ∧
    mapGet (invalidateQuery "/api/users"
        [("/api/users?page=1", ⟨.num 1, 10⟩), ("/api/posts?", ⟨.num 2, 20⟩)])
        "/api/users?page=1" =
      (if jsStartsWith "/api/users?page=1" "/api/users" then none
       else mapGet [("/api/users?page=1", ⟨.num 1, 10⟩), ("/api/posts?", ⟨.num 2, 20⟩)]
         "/api/users?page=1") :=
  ⟨by decide,
    c1_invalidateQuery_removes_exactly_matching _ "/api/users" "/api/users?page=1"
      (by decide)⟩

/-- C2 fails as written because fetchData first checks the enabled flag:
with the hook disabled, a call with no cache entry for the key and
isRefetch false issues no HTTP request at all, although the claim requires
a GET in that situation. -/
theorem c2_counterexample :
    mapGet ([] : QueryCache) "/api/users?" = none ∧
    (fetchData false [] "/api/users?" 300000 1000 false (.success (.num 1))
        1050).requestIssued = false :=
  ⟨rfl, rfl⟩

/-- C2 (amended with the enabled guard): for every enabled fetchData call,
when the cache holds an entry for the key whose age is below cacheTime and
this is not a refetch, the cached data and its timestamp are delivered, no
request is issued and the cache is unchanged; otherwise (entry absent,
entry at least cacheTime old, or a refetch) the GET is issued and on
success the cache entry for the key holds the response data and the fetch
time. -/
theorem c2_fetchData_cache_discipline (cache : QueryCache) (key : String)
    (cacheTime now fetchTime : Int) (isRefetch : Bool) (http : HttpResult) :
    (∀ entry, mapGet cache key = some entry →
      now - entry.timestamp < cacheTime → isRefetch = false →
      (fetchData true cache key cacheTime now isRefetch http fetchTime).requestIssued
          = false ∧
      (fetchData true cache key cacheTime now isRefetch http fetchTime).data
          = some entry.data ∧
      (fetchData true cache key cacheTime now isRefetch http fetchTime).dataUpdatedAt
          = some entry.timestamp ∧
      (fetchData true cache key cacheTime now isRefetch http fetchTime).cache
          = cache) ∧
    ((mapGet cache key = none ∨
      (∃ entry, mapGet cache key = some entry ∧ cacheTime ≤ now - entry.timestamp) ∨
      isRefetch = true) →
      (fetchData true cache key cacheTime now isRefetch http fetchTime).requestIssued
          = true ∧
      ∀ d, http = .success d →
        mapGet (fetchData true cache key cacheTime now isRefetch http fetchTime).cache
            key = some { data := d, timestamp := fetchTime }) := by
  constructor
  · intro entry hget hfresh hraw
    subst hraw
    unfold fetchData
    rw [hget]
    simp [cacheFresh, hfresh]
  · intro hmiss
    have hcf : cacheFresh (mapGet cache key) now cacheTime isRefetch = false := by
      rcases hmiss with h | ⟨entry, hget, hstale⟩ | h
      · rw [h]; rfl
      · rw [hget]
        simp [cacheFresh]
        intro hlt
        omega
      · subst h
        cases mapGet cache key with
        | none => rfl
        | some e => simp [cacheFresh]
    unfold fetchData
    rw [hcf]
    cases http with
    | success d =>
        refine ⟨rfl, ?_⟩
        intro d0 hd
        cases hd
        simpa [fetchComplete] using mapGet_mapSet_self cache key _
    | failure m =>
        exact ⟨rfl, fun d0 hd => by cases hd⟩

/-- Witness for the amended C2 on a concrete fresh cache hit. -/
theorem c2_witness :
    mapGet [("/api/users?", ⟨.num 7, 900⟩)] "/api/users?" =
        some { data := .num 7, timestamp := 900 } ∧
    (1000 : Int) - 900 < 300000 ∧
    (fetchData true [("/api/users?", ⟨.num 7, 900⟩)] "/api/users?" 300000 1000 false
        (.success (.num 8)) 1050).requestIssued = false :=
  ⟨rfl, by norm_num,
    ((c2_fetchData_cache_discipline [("/api/users?", ⟨.num 7, 900⟩)] "/api/users?"
        300000 1000 1050 false (.success (.num 8))).1
      { data := .num 7, timestamp := 900 } rfl (by norm_num) rfl).1⟩

/-- C8: the query cache is shared by all fetchData calls without any guard:
in the schedule in which a second call for the same key performs its cache
check before the first call resolves, both checks see no fresh entry, both
issue the network request, and the later completion overwrites the cache
entry written by the earlier one. -/
theorem c8_unguarded_race :
    cacheFresh (mapGet ([] : QueryCache) "/api/users?") 1000 300000 false = false ∧
    cacheFresh (mapGet ([] : QueryCache) "/api/users?") 1010 300000 false = false ∧
    (fetchComplete [] "/api/users?" (.success (.num 1)) 1100).requestIssued = true ∧
    (fetchComplete (fetchComplete [] "/api/users?" (.success (.num 1)) 1100).cache
        "/api/users?" (.success (.num 2)) 1200).requestIssued = true ∧
    mapGet (fetchComplete (fetchComplete [] "/api/users?" (.success (.num 1)) 1100).cache
        "/api/users?" (.success (.num 2)) 1200).cache "/api/users?" =
      some { data := .num 2, timestamp := 1200 } :=
  ⟨rfl, rfl, rfl, rfl, rfl⟩

/-- C3 fails as written: on a 401 error whose request is not yet marked,
when the refresh succeeds with a token, errorInterceptor re-issues the
original request instead of propagating the rejection. -/
theorem c3_counterexample :
    (errorInterceptor
        { response := some { status := 401, errors := none, message := none }
          config := some { url := some "/api/users", retryMarked := false } }
        (.response true (some "newtok"))).reissued = true :=
  rfl

/-- C3 (amended): the HTTP client retries only on the 401 token-refresh
path.  An error whose status is not 401 is rejected without re-issue; so is
a 401 whose request is already marked retried, and a 401 whose refresh
throws or returns a response that is not ok or carries no truthy token.  A
401 on an unmarked request whose refresh succeeds with a truthy token is
re-issued exactly once, with the request marked so it cannot be re-issued
again. -/
theorem c3_reissue_only_on_401_refresh (error : AxiosErrorModel)
    (refresh : RefreshOutcome) :
    ((∀ r, error.response = some r → r.status ≠ 401) →
      (errorInterceptor error refresh).reissued = false ∧
      (errorInterceptor error refresh).rejected = true) ∧
    (∀ cfg, error.config = some cfg → cfg.retryMarked = true →
      (errorInterceptor error refresh).reissued = false ∧
      (errorInterceptor error refresh).rejected = true) ∧
    (refresh = .throws →
      (errorInterceptor error refresh).reissued = false ∧
      (errorInterceptor error refresh).rejected = true) ∧
    (∀ ok token, refresh = .response ok token →
      (ok = false ∨ strTruthy token = false) →
      (errorInterceptor error refresh).reissued = false ∧
      (errorInterceptor error refresh).rejected = true) ∧
    (∀ r cfg token, error.response = some r → r.status = 401 →
      error.config = some cfg → cfg.retryMarked = false →
      strTruthy cfg.url = true → refresh = .response true (some token) →
      token ≠ "" →
      (errorInterceptor error refresh).reissued = true ∧
      (errorInterceptor error refresh).reissuedToken = some token ∧
      (errorInterceptor error refresh).retryMarked = true) := by
  refine ⟨?_, ?_, ?_, ?_, ?_⟩
  · intro hnot
    have h401 : (match error.response with
        | some r => r.status == 401
        | none => false) = false := by
      cases hr : error.response with
      | none => rfl
      | some r => simpa using hnot r hr
    cases hc : error.config with
    | none => simp [errorInterceptor, hc]
    | some cfg => simp [errorInterceptor, hc, h401]
  · intro cfg hc hmark
    simp [errorInterceptor, hc, hmark]
  · intro hrefresh
    subst hrefresh
    cases hc : error.config with
    | none => simp [errorInterceptor, hc]
    | some cfg =>
      cases h : ((match error.response with
          | some r => r.status == 401
          | none => false) && !cfg.retryMarked) <;>
        simp [errorInterceptor, hc, h]
  · intro ok token hrefresh hfail
    subst hrefresh
    have hok : (ok && strTruthy token) = false := by
      rcases hfail with h1 | h1 <;> simp [h1]
    cases hc : error.config with
    | none => simp [errorInterceptor, hc]
    | some cfg =>
      cases h : ((match error.response with
          | some r => r.status == 401
          | none => false) && !cfg.retryMarked) <;>
        simp [errorInterceptor, hc, h, hok]
  · intro r cfg token hr h401 hc hmark hurl hrefresh htok
    subst hrefresh
    have htt : strTruthy (some token) = true := by simp [strTruthy, htok]
    simp [errorInterceptor, hc, hr, h401, hmark, htt, hurl]

/-- Witness for the amended C3: a plain 500 error is rejected without
re-issue. -/
theorem c3_witness :
    (errorInterceptor
        { response := some { status := 500, errors := none, message := none }
          config := some { url := some "/api/users", retryMarked := false } }
        .throws).reissued = false ∧
    (errorInterceptor
        { response := some { status := 500, errors := none, message := none }
          config := some { url := some "/api/users", retryMarked := false } }
        .throws).rejected = true :=
  (c3_reissue_only_on_401_refresh
      { response := some { status := 500, errors := none, message := none }
        config := some { url := some "/api/users", retryMarked := false } }
      .throws).1
    (fun r hr => by cases hr; decide)

/-- C4: on a 401 error whose original request is not yet marked retried,
errorInterceptor attempts the token refresh, and when the refresh response
is not ok or carries no token the access token cookie is removed and the
browser is redirected to /login. -/
theorem c4_401_refresh_or_logout (error : AxiosErrorModel) (r : ErrorResponse)
    (cfg : RequestConfig) (refresh : RefreshOutcome)
    (hr : error.response = some r) (h401 : r.status = 401)
    (hc : error.config = some cfg) (hmark : cfg.retryMarked = false) :
    (errorInterceptor error refresh).refreshAttempted = true ∧
    (∀ ok token, refresh = .response ok token →
      (ok = false ∨ strTruthy token = false) →
      (errorInterceptor error refresh).cookieRemoved = true ∧
      (errorInterceptor error refresh).redirectedToLogin = true) := by
  constructor
  · cases refresh with
    | throws => simp [errorInterceptor, hc, hr, h401, hmark]
    | response ok token =>
      cases h : (ok && strTruthy token) with
      | false => simp [errorInterceptor, hc, hr, h401, hmark, h]
      | true =>
        cases hu : strTruthy cfg.url <;>
          simp [errorInterceptor, hc, hr, h401, hmark, h, hu]
  · intro ok token hrefresh hfail
    subst hrefresh
    have hok : (ok && strTruthy token) = false := by
      rcases hfail with h1 | h1 <;> simp [h1]
    simp [errorInterceptor, hc, hr, h401, hmark, hok]

/-- Witness for C4: a 401 with a refresh that returns ok := false. -/
theorem c4_witness :
    (errorInterceptor
        { response := some { status := 401, errors := none, message := none }
          config := some { url := some "/api/me", retryMarked := false } }
        (.response false none)).refreshAttempted = true ∧
    (errorInterceptor
        { response := some { status := 401, errors := none, message := none }
          config := some { url := some "/api/me", retryMarked := false } }
        (.response false none)).cookieRemoved = true :=
  have h := c4_401_refresh_or_logout
    { response := some { status := 401, errors := none, message := none }
      config := some { url := some "/api/me", retryMarked := false } }
    { status := 401, errors := none, message := none }
    { url := some "/api/me", retryMarked := false }
    (.response false none) rfl rfl rfl rfl
  ⟨h.1, (h.2 false none rfl (Or.inl rfl)).1⟩

/-- C5: a 422 error carrying an errors object is rejected augmented with
laravelErrors := response.data.errors and message := response.data.message
or the default validation message; an error with any other status is
rejected unchanged; and handleSubmit, catching such an error, stores the
formatted field-error map (each field mapped to its message) in the form
state. -/
theorem c5_validation_errors (error : AxiosErrorModel) (r : ErrorResponse) :
    (∀ errs, error.response = some r → r.status = 422 → r.errors = some errs →
      validationErrorInterceptor error =
        .augmented (some errs) (jsOrDefault r.message "Erreur de validation")) ∧
    (error.response = some r → r.status ≠ 422 →
      validationErrorInterceptor error = .original) ∧
    (∀ st laravelErrors,
      (handleSubmit st (.err (some laravelErrors))).errors =
        formatLaravelErrors laravelErrors) := by
  refine ⟨?_, ?_, ?_⟩
  · intro errs hr h422 herrs
    simp [validationErrorInterceptor, hr, h422, herrs]
  · intro hr hne
    simp [validationErrorInterceptor, hr, hne]
  · intro st laravelErrors
    rfl

/-- Witness for C5 at a concrete 422 error and a concrete form state. -/
theorem c5_witness :
    validationErrorInterceptor
        { response := some { status := 422,
                             errors := some [("email", .arr [.str "taken"])],
                             message := some "The given data was invalid." },
          config := none } =
      .augmented (some [("email", .arr [.str "taken"])])
        (jsOrDefault (some "The given data was invalid.") "Erreur de validation") :=
  (c5_validation_errors
      { response := some { status := 422,
                           errors := some [("email", .arr [.str "taken"])],
                           message := some "The given data was invalid." },
        config := none }
      { status := 422,
        errors := some [("email", .arr [.str "taken"])],
        message := some "The given data was invalid." }).1
    [("email", .arr [.str "taken"])] rfl rfl rfl

/-- C6: formatLaravelErrors keeps exactly the keys of its input; a key
whose value is a non-empty array is mapped to the first element of the
array, and a key whose value is not an array is mapped to the value
itself. -/
theorem c6_formatLaravelErrors_first_message (errors : List (String × JsValue)) :
    ((formatLaravelErrors errors).map Prod.fst = errors.map Prod.fst) ∧
    (∀ key m ms, (key, JsValue.arr (m :: ms)) ∈ errors →
      (key, m) ∈ formatLaravelErrors errors) ∧
    (∀ key v, (key, v) ∈ errors → (∀ elts, v ≠ JsValue.arr elts) →
      (key, v) ∈ formatLaravelErrors errors) := by
  induction errors with
  | nil =>
    refine ⟨rfl, ?_, ?_⟩
    · intro key m ms h
      simp at h
    · intro key v h hv
      simp at h
  | cons head rest ih =>
    obtain ⟨k0, v0⟩ := head
    refine ⟨?_, ?_, ?_⟩
    · simpa [formatLaravelErrors] using ih.1
    · intro key m ms hmem
      rcases List.mem_cons.mp hmem with heq | htail
      · cases heq
        simp [formatLaravelErrors]
      · exact List.mem_cons_of_mem _ (ih.2.1 key m ms htail)
    · intro key v hmem hnarr
      rcases List.mem_cons.mp hmem with heq | htail
      · cases heq
        cases v0 with
        | arr elts => exact absurd rfl (hnarr elts)
        | null => exact List.mem_cons_self _ _
        | undef => exact List.mem_cons_self _ _
        | str s => exact List.mem_cons_self _ _
        | num n => exact List.mem_cons_self _ _
        | boolean b => exact List.mem_cons_self _ _
        | obj fields => exact List.mem_cons_self _ _
      · exact List.mem_cons_of_mem _ (ih.2.2 key v htail hnarr)

/-- Witness for C6 on a concrete Laravel error payload. -/
theorem c6_witness :
    (formatLaravelErrors [("email", .arr [.str "taken", .str "invalid"]),
        ("name", .arr [.str "required"])]).map Prod.fst =
      [("email", JsValue.arr [.str "taken", .str "invalid"]),
        ("name", .arr [.str "required"])].map Prod.fst ∧
    ("email", JsValue.str "taken") ∈
      formatLaravelErrors [("email", .arr [.str "taken", .str "invalid"]),
        ("name", .arr [.str "required"])] :=
  have h := c6_formatLaravelErrors_first_message
    [("email", .arr [.str "taken", .str "invalid"]), ("name", .arr [.str "required"])]
  ⟨h.1, h.2.1 "email" (.str "taken") [.str "invalid"] (List.mem_cons_self _ _)⟩

theorem jsTrim_eq_nil_iff (l : List Char) :
    jsTrim l = [] ↔ ∀ c ∈ l, Char.isWhitespace c := by
  unfold jsTrim
  rw [List.reverse_eq_nil_iff, List.dropWhile_eq_nil_iff]
  constructor
  · intro h c hc
    rw [← List.takeWhile_append_dropWhile Char.isWhitespace l] at hc
    rcases List.mem_append.mp hc with h1 | h2
    · exact List.mem_takeWhile_imp h1
    · exact h c (List.mem_reverse.mpr h2)
  · intro h c hc
    apply h
    rw [← List.takeWhile_append_dropWhile Char.isWhitespace l]
    exact List.mem_append.mpr (Or.inr (List.mem_reverse.mp hc))

/-- C7: isEmpty is true on the empty object and the empty array, and more
generally it is true exactly on null, undefined, whitespace-only strings,
empty arrays and objects without own enumerable keys, and false on every
other value. -/
theorem c7_isEmpty_characterization :
    isEmpty (.obj []) = true ∧ isEmpty (.arr []) = true ∧
    ∀ v, isEmpty v = true ↔
      (v = .null ∨ v = .undef ∨
        (∃ s, v = .str s ∧ ∀ c ∈ s.data, Char.isWhitespace c) ∨
        v = .arr [] ∨ v = .obj []) := by
  refine ⟨rfl, rfl, ?_⟩
  intro v
  cases v with
  | null => simp [isEmpty]
  | undef => simp [isEmpty]
  | str s =>
    simp only [isEmpty, beq_iff_eq, List.length_eq_zero, jsTrim_eq_nil_iff]
    constructor
    · intro h
      exact Or.inr (Or.inr (Or.inl ⟨s, rfl, h⟩))
    · rintro (h | h | ⟨s2, hs, hw⟩ | h | h) <;> simp_all
  | num n => simp [isEmpty]
  | boolean b => simp [isEmpty]
  | arr elts =>
    simp only [isEmpty, beq_iff_eq, List.length_eq_zero]
    constructor
    · intro h; subst h; right; right; right; left; rfl
    · rintro (h | h | ⟨s2, hs, hw⟩ | h | h) <;> simp_all
  | obj fields =>
    simp only [isEmpty, beq_iff_eq, List.length_eq_zero]
    constructor
    · intro h; subst h; right; right; right; right; rfl
    · rintro (h | h | ⟨s2, hs, hw⟩ | h | h) <;> simp_all

/-- C9: assuming lastPage is at least 1 and the current page lies between 1
and lastPage, every client-side navigation callback preserves that bound:
goToPage moves only to an in-range page, nextPage increments only below
lastPage, prevPage decrements only above 1, firstPage sets page 1,
lastPageFn sets lastPage, and setPerPage resets to page 1. -/
theorem c9_pagination_invariant (st : PaginationState)
    (hlp : 1 ≤ st.lastPage) (hinv : pageInv st) :
    (∀ p, pageInv (goToPage st p)) ∧
    (∀ p, ¬(1 ≤ p ∧ p ≤ st.lastPage) → goToPage st p = st) ∧
    pageInv (nextPage st) ∧ (st.lastPage ≤ st.currentPage → nextPage st = st) ∧
    pageInv (prevPage st) ∧ (st.currentPage ≤ 1 → prevPage st = st) ∧
    pageInv (firstPage st) ∧ (firstPage st).currentPage = 1 ∧
    pageInv (lastPageNav st) ∧ (lastPageNav st).currentPage = st.lastPage ∧
    (∀ n, pageInv (handleSetPerPage st n) ∧
      (handleSetPerPage st n).currentPage = 1) := by
  obtain ⟨h1, h2⟩ := hinv
  refine ⟨?_, ?_, ?_, ?_, ?_, ?_, ?_, rfl, ?_, rfl, ?_⟩
  · intro p
    dsimp only [goToPage, pageInv]
    by_cases h : 1 ≤ p ∧ p ≤ st.lastPage
    · rw [if_pos h]
      dsimp
      omega
    · rw [if_neg h]
      exact ⟨h1, h2⟩
  · intro p hp
    dsimp only [goToPage]
    rw [if_neg hp]
  · dsimp only [nextPage, pageInv]
    by_cases h : st.currentPage < st.lastPage
    · rw [if_pos h]
      dsimp
      omega
    · rw [if_neg h]
      exact ⟨h1, h2⟩
  · intro h
    dsimp only [nextPage]
    rw [if_neg (by omega)]
  · dsimp only [prevPage, pageInv]
    by_cases h : 1 < st.currentPage
    · rw [if_pos h]
      dsimp
      omega
    · rw [if_neg h]
      exact ⟨h1, h2⟩
  · intro h
    dsimp only [prevPage]
    rw [if_neg (by omega)]
  · dsimp only [firstPage, pageInv]
    omega
  · dsimp only [lastPageNav, pageInv]
    omega
  · intro n
    dsimp only [handleSetPerPage, pageInv]
    exact ⟨⟨by omega, by omega⟩, rfl⟩

/-- Witness for C9 at the concrete state with page 2 of 5. -/
theorem c9_witness :
    (1 : Int) ≤ (⟨2, 5, 15⟩ : PaginationState).lastPage ∧
    pageInv (nextPage ⟨2, 5, 15⟩) :=
  ⟨by decide,
    (c9_pagination_invariant ⟨2, 5, 15⟩ (by decide) ⟨by decide, by decide⟩).2.2.1⟩

/-- C10 fails as written: a cookie that is present with the empty string as
its value is not absent, and the user request would succeed, yet
getServerSideAuth treats the falsy token like a missing one and returns the
unauthenticated context without calling the endpoint. -/
theorem c10_counterexample :
    lookupCookie [("access_token", "")] "access_token" = some "" ∧
    getServerSideAuth [("access_token", "")] "access_token"
        (.response true (.obj [])) =
      { isAuthenticated := false, user := none, token := none } :=
  ⟨rfl, rfl⟩

/-- C10 (amended): getServerSideAuth returns the unauthenticated context
whenever the cookie is absent or empty, the user-endpoint response is not
ok, or the fetch throws; it returns the authenticated context with the
parsed user and the original token exactly when a non-empty token is
present and the request succeeds. -/
theorem c10_server_auth_cases (cookies : List (String × String))
    (cookieName : String) (fetchUser : UserFetchOutcome) :
    ((lookupCookie cookies cookieName = none ∨
      lookupCookie cookies cookieName = some "") →
      getServerSideAuth cookies cookieName fetchUser =
        { isAuthenticated := false, user := none, token := none }) ∧
    (fetchUser = .throws →
      getServerSideAuth cookies cookieName fetchUser =
        { isAuthenticated := false, user := none, token := none }) ∧
    (∀ body, fetchUser = .response false body →
      getServerSideAuth cookies cookieName fetchUser =
        { isAuthenticated := false, user := none, token := none }) ∧
    (∀ tok body, lookupCookie cookies cookieName = some tok → tok ≠ "" →
      fetchUser = .response true body →
      getServerSideAuth cookies cookieName fetchUser =
        { isAuthenticated := true, user := some body, token := some tok }) := by
  refine ⟨?_, ?_, ?_, ?_⟩
  · intro h
    have hf : strTruthy (lookupCookie cookies cookieName) = false := by
      rcases h with h | h <;> simp [strTruthy, h]
    simp [getServerSideAuth, hf]
  · intro h
    subst h
    cases ht : strTruthy (lookupCookie cookies cookieName) <;>
      simp [getServerSideAuth, ht]
  · intro body h
    subst h
    cases ht : strTruthy (lookupCookie cookies cookieName) <;>
      simp [getServerSideAuth, ht]
  · intro tok body hlk htok hf
    subst hf
    have ht : strTruthy (lookupCookie cookies cookieName) = true := by
      simp [strTruthy, hlk, htok]
    simp [getServerSideAuth, ht, hlk, strTruthy, htok]

/-- Witness for the amended C10 with a present non-empty token and a
successful user request. -/
theorem c10_witness :
    lookupCookie [("access_token", "tok123")] "access_token" = some "tok123" ∧
    getServerSideAuth [("access_token", "tok123")] "access_token"
        (.response true (.obj [("id", .num 1)])) =
      { isAuthenticated := true, user := some (.obj [("id", .num 1)]),
        token := some "tok123" } :=
  ⟨rfl,
    (c10_server_auth_cases [("access_token", "tok123")] "access_token"
        (.response true (.obj [("id", .num 1)]))).2.2.2 "tok123"
      (.obj [("id", .num 1)]) rfl (by decide) rfl⟩

end NLBridge
